import Mathlib

/-
Verification of the market-scraper subsystem of the Kisan-G repository.

The live scraper lives in src/backend/market_scrapper.py (class
MarketDataScraper driving a Selenium browser); a mock variant lives in
src/backend/market_scraper.py.  The browser, the remote site and the
logging are external effects; we embed them as explicit oracle values
describing the outcome of each automation step, and translate the
control flow of the Python methods over those oracles.  All record and
price handling is translated directly from the source.

The agmarknet_API package imported at the top of market_scrapper.py is
absent from the repository, so the module falls through to the fallback
definitions at src/backend/market_scrapper.py lines 36-57; those
fallbacks (format_price, clean_text_data, Config) are what we embed.
-/

namespace KisanG

/-- Python str.strip() with no argument: remove leading and trailing
whitespace. -/
def strip (s : String) : String :=
  ⟨((s.data.dropWhile Char.isWhitespace).reverse.dropWhile Char.isWhitespace).reverse⟩

/-- Split a character list at every occurrence of sep; the pieces keep
their order and do not contain sep. -/
def splitChar (sep : Char) : List Char → List (List Char)
  | [] => [[]]
  | c :: rest =>
    match splitChar sep rest with
    | [] => [[c]]
    | g :: gs => if c = sep then [] :: g :: gs else (c :: g) :: gs

/-- Python s.split(sep) / String.splitOn for a one-character
separator. -/
def split_on (sep : Char) (s : String) : List String :=
  (splitChar sep s.data).map String.mk

/-- All-digit check for a nonempty character list. -/
def isDigits (s : List Char) : Bool := !s.isEmpty && s.all Char.isDigit

/-- Decimal value of a digit list. -/
def charsToNat (s : List Char) : Nat :=
  s.foldl (fun acc c => acc * 10 + (c.toNat - 48)) 0

namespace Scrapper

/-- Fallback Config (src/backend/market_scrapper.py lines 53-57). -/
def MAX_DAYS_BACK : Int := 30

/-- Fallback format_price (lines 44-45): returns the price unchanged. -/
def format_price (price : String) : String := price

/-- One row of the scraped results table, keyed exactly as the dict
built in _extract_table_data (lines 246-256). -/
structure Record where
  S_No : String
  Market_Center : String
  Commodity : String
  Variety : String
  Grade : String
  Min_Price : String
  Max_Price : String
  Modal_Price : String
  Date : String
deriving DecidableEq, Repr

/-- Fallback clean_text_data (lines 47-48): returns the data unchanged. -/
def clean_text_data (data : List Record) : List Record := data

/-- cells[i].text.strip() for a row given as the list of its cell texts.
The source indexes only cells 0-9 after checking len(cells) >= 11, so
the default is never used on rows the code keeps. -/
def cellText (cells : List String) (i : Nat) : String := strip (cells.getD i "")

/-- The data_dict built for one row (lines 246-256): fixed cell
positions, cell 2 skipped, format_price applied uniformly to the
min/max/modal price cells. -/
def mkRecord (cells : List String) : Record :=
  { S_No := cellText cells 0
    Market_Center := cellText cells 1
    Commodity := cellText cells 3
    Variety := cellText cells 4
    Grade := cellText cells 5
    Min_Price := format_price (cellText cells 6)
    Max_Price := format_price (cellText cells 7)
    Modal_Price := format_price (cellText cells 8)
    Date := cellText cells 9 }

/-- The validity gate of line 259: both strings truthy (non-empty). -/
def rowValid (r : Record) : Bool :=
  r.Market_Center != "" && r.Modal_Price != ""

/-- Processing of one data row (lines 241-260): rows with fewer than 11
cells are skipped, then the record is kept only if valid. -/
def parseRow (cells : List String) : Option Record :=
  if cells.length < 11 then none
  else
    let r := mkRecord cells
    if rowValid r then some r else none

/-- _extract_table_data (lines 218-273) applied to the parsed table,
given as the list of its rows, each row the list of its cell texts.
Line 234: fewer than two rows means no data rows, return [].
Line 240: the first row is the header and is dropped.
Line 266: clean_text_data is callable, so it is applied (identity). -/
def extract_table_data (rows : List (List String)) : List Record :=
  if rows.length < 2 then []
  else clean_text_data ((rows.drop 1).filterMap parseRow)

/-- Outcome of one attempt of the loop body of _select_dropdown_option
(lines 161-183): the wait/locate/select either succeeds, raises
StaleElementReferenceException, raises NoSuchElementException (option
text absent), or raises some other exception (this includes the
TimeoutException of the ten-second wait, which no earlier clause
catches). -/
inductive SelectOutcome where
  | ok
  | stale
  | notFound
  | otherError
deriving DecidableEq, Repr

/-- The for-loop of _select_dropdown_option (lines 161-183), with the
outcome of attempt number a supplied by the oracle.  ok returns True at
line 169; stale sleeps and continues (lines 170-175); notFound returns
False at line 178 without using the remaining attempts; any other
exception logs, sleeps and continues (lines 179-183); a loop that runs
out of attempts falls through to return False at line 184. -/
def select_loop (oracle : Nat → SelectOutcome) : Nat → Nat → Bool
  | 0, _ => false
  | fuel + 1, attempt =>
    match oracle attempt with
    | .ok => true
    | .stale => select_loop oracle fuel (attempt + 1)
    | .notFound => false
    | .otherError => select_loop oracle fuel (attempt + 1)

/-- _select_dropdown_option (lines 153-184); every call site uses the
default max_retries = 3. -/
def select_dropdown_option (oracle : Nat → SelectOutcome) (max_retries : Nat) : Bool :=
  select_loop oracle max_retries 0

/-- Outcome of one call of _setup_driver (lines 92-124).  The method
is not atomic: webdriver.Chrome at line 114 creates the browser
session, and only afterwards are set_page_load_timeout and
implicitly_wait issued (lines 115-116) before the driver is returned.
createFail: line 114 itself raises, so no session ever exists and the
re-raise at line 124 leaves nothing behind.  configFail: line 114
succeeded but a configuration call raised, so a live session exists
while the exception is re-raised and the local driver reference is
lost - no caller can ever quit that session.  ok: the configured
driver is returned. -/
inductive SetupOutcome where
  | ok
  | createFail
  | configFail
deriving DecidableEq, Repr

/-- Environment for one call of scrape_market_data (lines 323-369):
the outcome of every external automation step.  setup is the
_setup_driver outcome of line 334; a false value for navOk or
marketWaitOk stands for the corresponding call raising (caught by the
except clause at line 364); a false value for the selection/date/click
steps stands for the helper returning False (each helper catches its
own exceptions and returns a Bool).  table is the parsed results table
when it appears (none when the wait at line 223 or the find at line
227 comes up empty, both of which yield []). -/
structure ScrapeEnv where
  setup : SetupOutcome
  navOk : Bool
  selCommodity : Bool
  selState : Bool
  marketWaitOk : Bool
  selMarket : Bool
  setDateOk : Bool
  clickGoOk : Bool
  table : Option (List (List String))
deriving DecidableEq, Repr

/-- What one call of scrape_market_data returns and does to the
browser: the returned record list, how many driver sessions the call
created, and how many reached a quit call. -/
structure ScrapeOutcome where
  records : List Record
  sessionsOpened : Nat
  sessionsClosed : Nat
deriving DecidableEq, Repr

/-- The body of _extract_table_data around the table itself: a missing
table (wait timeout, or not found in the page source) yields [] (lines
223-236, 268-270); a present table is parsed row by row. -/
def extract_from_page (table : Option (List (List String))) : List Record :=
  match table with
  | none => []
  | some rows => extract_table_data rows

/-- The step sequence of scrape_market_data after the driver exists
(lines 335-367): each failed step returns [] early, an exception in a
wait is caught at line 364 and also yields [], and a completed sequence
returns the extracted table data.  Every one of these paths runs the
finally clause (line 368), so the session accounting is common to them
and lives in scrape_market_data below. -/
def scrape_records_after_setup (env : ScrapeEnv) : List Record :=
  if env.navOk = false then []
  else if env.selCommodity = false then []
  else if env.selState = false then []
  else if env.marketWaitOk = false then []
  else if env.selMarket = false then []
  else if env.setDateOk = false then []
  else if env.clickGoOk = false then []
  else extract_from_page env.table

/-- scrape_market_data (lines 323-369).  Line 327: days outside
[1, MAX_DAYS_BACK] returns [] at once, before any driver exists.
Line 334: self.driver = self._setup_driver().  If line 114 raises, no
session exists; the except clause at 364 returns [] and cleanup finds
self.driver still None.  If _setup_driver raises after creating the
session (lines 115-116), the assignment never completes, so the except
clause still returns [] and cleanup still finds self.driver None and
quits nothing: one session opened, zero closed - the session leaks.
Once the assignment completes, every path - early return, exception,
success - runs the finally clause, whose cleanup quits the driver
exactly once. -/
def scrape_market_data (env : ScrapeEnv) (days : Int) : ScrapeOutcome :=
  if ¬(1 ≤ days ∧ days ≤ MAX_DAYS_BACK) then ⟨[], 0, 0⟩
  else
    match env.setup with
    | .createFail => ⟨[], 0, 0⟩
    | .configFail => ⟨[], 1, 0⟩
    | .ok => ⟨scrape_records_after_setup env, 1, 1⟩

/-- Environment for one call of _get_dropdown_options (lines 126-151):
setup is the _setup_driver outcome of line 132, which sits outside the
try/finally block; stepsOk false stands for any exception inside the
try block (caught at line 146, options_list stays []); rawOptions are
the option texts of the located dropdown. -/
structure DropdownEnv where
  setup : SetupOutcome
  stepsOk : Bool
  rawOptions : List String
deriving DecidableEq, Repr

/-- What one call of _get_dropdown_options returns and does to the
browser: the returned options, the session accounting, and whether an
exception escaped the call. -/
structure DropdownOutcome where
  options : List String
  sessionsOpened : Nat
  sessionsClosed : Nat
  raised : Bool
deriving DecidableEq, Repr

/-- _get_dropdown_options (lines 126-151).  Line 132 runs before the
try block: if _setup_driver raises at creation nothing exists and the
exception escapes; if it raises after creating the session (lines
115-116) the exception escapes with the session never quit - one
opened, zero closed, a leak.  Once a driver is returned, the finally
clause at line 148 quits it on both the success path and the
caught-exception path; the option texts equal to default_option_text
are dropped (line 141). -/
def get_dropdown_options (env : DropdownEnv) (default_option_text : String) : DropdownOutcome :=
  match env.setup with
  | .createFail => ⟨[], 0, 0, true⟩
  | .configFail => ⟨[], 1, 0, true⟩
  | .ok =>
    if env.stepsOk = false then ⟨[], 1, 1, false⟩
    else ⟨env.rawOptions.filter (fun t => t != default_option_text), 1, 1, false⟩

/-- The scraper state that cleanup reads and writes: self.driver, plus
whether the underlying driver.quit() call would raise. -/
structure CleanupState where
  driver : Option Unit
  quitFails : Bool
deriving DecidableEq, Repr

/-- Observable effect of one cleanup call: the state afterwards, how
many quit calls were made, and whether an exception escaped the call. -/
structure CleanupResult where
  state : CleanupState
  quitCalls : Nat
  raised : Bool
deriving DecidableEq, Repr

/-- cleanup (lines 429-438): without a driver it does nothing; with one
it calls quit once inside try/except (any exception, failing quit
included, is caught and logged at line 436, never re-raised) and the
finally clause sets self.driver to None. -/
def cleanup (s : CleanupState) : CleanupResult :=
  match s.driver with
  | none => ⟨s, 0, false⟩
  | some _ => ⟨{ s with driver := none }, 1, false⟩

/-- Models float(s) (line 387) on the unsigned decimal numerals the
scraped price strings take after comma removal: plain digits, or
digits dot digits; anything else raises ValueError (none). -/
def parse_float (s : String) : Option ℚ :=
  match split_on '.' s with
  | [w] => if isDigits w.data then some (charsToNat w.data : ℚ) else none
  | [w, f] =>
    if isDigits w.data && isDigits f.data then
      some ((charsToNat w.data : ℚ) + (charsToNat f.data : ℚ) / ((10 : ℚ) ^ f.length))
    else none
  | _ => none

/-- s.replace(",", "") at line 386: a one-character pattern replaced by
the empty string removes every comma. -/
def remove_commas (s : String) : String := ⟨s.data.filter (fun c => c != ',')⟩

/-- Lines 383-391 for one day: if that day returned no records the day
is skipped, else the first record has its Modal_Price read, commas
removed, and parsed; a parse failure (ValueError) skips the day.
dailyData is the oracle for self.scrape_market_data(..., days=day_ago),
one List Record per day_ago. -/
def price_of_day (dailyData : Nat → List Record) (day_ago : Nat) : Option ℚ :=
  match dailyData day_ago with
  | [] => none
  | r :: _ => parse_float (remove_commas r.Modal_Price)

/-- The day_ago values the loop at line 380 passes to
scrape_market_data, in call order: range(1, days + 1). -/
def trend_call_order (days : Nat) : List Nat :=
  (List.range days).map (· + 1)

/-- all_prices as collected by the loop (lines 377-391): newest day
first, empty and unparsable days skipped. -/
def collected_prices (dailyData : Nat → List Record) (days : Nat) : List ℚ :=
  (trend_call_order days).filterMap (price_of_day dailyData)

/-- all_prices after the reversal at line 398: chronological, oldest
first. -/
def chrono_prices (dailyData : Nat → List Record) (days : Nat) : List ℚ :=
  (collected_prices dailyData days).reverse

/-- Python round to the nearest integer, ties to even, on exact
rationals. -/
def round_half_even (q : ℚ) : ℤ :=
  let f : ℤ := ⌊q⌋
  let r : ℚ := q - f
  if r < 1 / 2 then f
  else if 1 / 2 < r then f + 1
  else if f % 2 = 0 then f else f + 1

/-- round(x, 2) at line 425. -/
def pyround2 (q : ℚ) : ℚ := (round_half_even (q * 100) : ℚ) / 100

/-- The numeric and trend fields of the dict returned by
get_price_trends (lines 414-427).  The commodity/state/market/period
strings and the wall-clock timestamp are pass-through metadata and are
not modelled. -/
structure TrendSummary where
  trend_data_points : Nat
  highest_price : ℚ
  lowest_price : ℚ
  average_price : ℚ
  latest_price : ℚ
  trend : String
  percentage_change : ℚ
deriving DecidableEq, Repr

/-- Lines 393-427 applied to the chronological all_prices list: empty
means return {} (none); otherwise the trend block (lines 402-412) runs
only when more than one price was collected, and the summary dict is
built with the rounded percentage change. -/
def trend_summary_of_prices (all_prices : List ℚ) : Option TrendSummary :=
  match all_prices with
  | [] => none
  | p0 :: rest =>
    let n := (p0 :: rest).length
    let lastp := (p0 :: rest).getLastD 0
    let tp : String × ℚ :=
      if 1 < n then
        let price_change := lastp - p0
        let t := if 0 < price_change then "upward"
                 else if price_change < 0 then "downward" else "stable"
        let pc := if p0 ≠ 0 then price_change / p0 * 100 else 0
        (t, pc)
      else ("stable", 0)
    some
      { trend_data_points := n
        highest_price := (p0 :: rest).foldl max p0
        lowest_price := (p0 :: rest).foldl min p0
        average_price := (p0 :: rest).sum / (n : ℚ)
        latest_price := lastp
        trend := tp.1
        percentage_change := pyround2 tp.2 }

/-- get_price_trends (lines 371-427) over the per-day fetch oracle. -/
def get_price_trends (dailyData : Nat → List Record) (days : Nat) : Option TrendSummary :=
  trend_summary_of_prices (chrono_prices dailyData days)

end Scrapper

/- == Model of src/backend/market_scraper.py (mock variant) == -/

namespace MockScraper

/-- One item of the data handed to filter_data, as a record of the dict
keys the method reads.  item.get with a default models a possibly
missing key, so each field is optional. -/
structure MockItem where
  min_price : Option ℚ
  max_price : Option ℚ
  date : Option String
deriving DecidableEq, Repr

/-- The filters dict of filter_data: which of the four recognised keys
are present, and with what values. -/
structure Filters where
  min_price_range : Option ℚ
  max_price_range : Option ℚ
  date_from : Option String
  date_to : Option String
deriving DecidableEq, Repr

/-- Models datetime.strptime(s, "%Y-%m-%d") (lines 175, 178, 182, 185)
on year-month-day strings: three dash-separated digit groups with the
month and day in range (day-of-month validation simplified to 1-31).
none stands for the ValueError strptime raises on anything else. -/
def parse_date (s : String) : Option (Nat × Nat × Nat) :=
  match split_on '-' s with
  | [y, m, d] =>
    if isDigits y.data && isDigits m.data && isDigits d.data then
      let mn := charsToNat m.data
      let dn := charsToNat d.data
      if 1 ≤ mn ∧ mn ≤ 12 ∧ 1 ≤ dn ∧ dn ≤ 31 then
        some (charsToNat y.data, mn, dn)
      else none
    else none
  | _ => none

/-- datetime ordering on parsed dates: lexicographic on
(year, month, day). -/
def dateLe (a b : Nat × Nat × Nat) : Bool :=
  if a.1 ≠ b.1 then decide (a.1 < b.1)
  else if a.2.1 ≠ b.2.1 then decide (a.2.1 < b.2.1)
  else decide (a.2.2 ≤ b.2.2)

/-- One of the date list comprehensions (lines 176-179 and 183-186):
each surviving item must have its date field parsed; the first
unparsable date raises ValueError out of filter_data (none). -/
def filterByDate (keep : Nat × Nat × Nat → Bool) : List MockItem → Option (List MockItem)
  | [] => some []
  | it :: rest =>
    match parse_date (it.date.getD "") with
    | none => none
    | some d =>
      (filterByDate keep rest).map (fun tail => if keep d then it :: tail else tail)

/-- One of the two date filter stages (lines 174-179 and 181-186): when
the filter key is absent the list passes through; when present, its
bound is parsed (ValueError propagates) and the comparison against each
item date is applied. -/
def applyDateFilter (bound : Option String) (keep : Nat × Nat × Nat → Nat × Nat × Nat → Bool)
    (fd : List MockItem) : Option (List MockItem) :=
  match bound with
  | none => some fd
  | some s =>
    match parse_date s with
    | none => none
    | some d0 => filterByDate (keep d0) fd

/-- filter_data (lines 149-188).  Line 160 copies the input, so the
input list is never mutated; the four stages then rebuild the filtered
list in order.  The result is none when a strptime call raises
(the exception leaves filter_data). -/
def filter_data (data : List MockItem) (filters : Filters) : Option (List MockItem) :=
  let fd1 :=
    match filters.min_price_range with
    | some v => data.filter (fun it => decide (v ≤ it.min_price.getD 0))
    | none => data
  let fd2 :=
    match filters.max_price_range with
    | some v => fd1.filter (fun it => decide (it.max_price.getD 0 ≤ v))
    | none => fd1
  (applyDateFilter filters.date_from (fun d0 d => dateLe d0 d) fd2).bind
    (fun fd3 => applyDateFilter filters.date_to (fun d0 d => dateLe d d0) fd3)

end MockScraper

/- == Concrete fixtures == -/

/-- Header row of the scenario table (spec section 8): dropped by the
extraction whatever its contents. -/
def headerRow : List String :=
  ["S.No", "Market Center", "District", "Commodity", "Variety", "Grade",
   "Min Price", "Max Price", "Modal Price", "Date", "Arrivals"]

/-- The single data row of the scenario table: 11 cells,
marketCenter = Pune at cell 1, modal price 2,250 at cell 8. -/
def dataRowPune : List String :=
  ["1", "Pune", "Pune", "Onion", "Local", "FAQ", "2,000", "2,500", "2,250",
   "05-Oct-2026", "120"]

/-- The scenario table: one header row plus one data row. -/
def tableOnionPune : List (List String) := [headerRow, dataRowPune]

/-- The record the extraction builds from dataRowPune. -/
def recPune : Scrapper.Record :=
  { S_No := "1", Market_Center := "Pune", Commodity := "Onion",
    Variety := "Local", Grade := "FAQ", Min_Price := "2,000",
    Max_Price := "2,500", Modal_Price := "2,250", Date := "05-Oct-2026" }

/-- A run of scrape_market_data in which every automation step succeeds
and the results table is the scenario table. -/
def envOk : Scrapper.ScrapeEnv :=
  ⟨Scrapper.SetupOutcome.ok, true, true, true, true, true, true, true,
   some tableOnionPune⟩

/-- A run in which webdriver.Chrome creates the session but a
configuration call of _setup_driver raises before the driver is
returned. -/
def envConfigFail : Scrapper.ScrapeEnv :=
  { envOk with setup := Scrapper.SetupOutcome.configFail }

/-- The same mid-configuration setup failure inside
_get_dropdown_options. -/
def denvConfigFail : Scrapper.DropdownEnv :=
  ⟨Scrapper.SetupOutcome.configFail, true, ["--Select--", "Onion"]⟩

/-- A run in which everything succeeds but no results table ever
appears: the specified missing-table-means-empty case. -/
def envNoTable : Scrapper.ScrapeEnv := { envOk with table := none }

/-- A run in which the commodity dropdown selection fails: an
automation failure, not a data gap. -/
def envSelFail : Scrapper.ScrapeEnv := { envOk with selCommodity := false }

/-- A run in which the navigation to the form URL raises. -/
def envNavFail : Scrapper.ScrapeEnv := { envOk with navOk := false }

/-- A one-record day with the given modal price string. -/
def recWithModal (p : String) : Scrapper.Record :=
  { S_No := "1", Market_Center := "Mkt", Commodity := "Onion",
    Variety := "Local", Grade := "FAQ", Min_Price := p, Max_Price := p,
    Modal_Price := p, Date := "d" }

/-- Per-day fetch oracle over a five-day window with data on the last
three days only: modal prices 2150 (yesterday), 2100 (two days ago),
2000 (three days ago); chronologically 2000, 2100, 2150. -/
def daily5 : Nat → List Scrapper.Record := fun d =>
  if d = 1 then [recWithModal "2150"]
  else if d = 2 then [recWithModal "2100"]
  else if d = 3 then [recWithModal "2000"]
  else []

/-- Per-day fetch oracle with modal price 1 yesterday and 3 two days
ago: chronologically 3 then 1, a downward trend whose exact percentage
change -200/3 is not representable in two decimal places. -/
def dailyDown : Nat → List Scrapper.Record := fun d =>
  if d = 1 then [recWithModal "1"] else if d = 2 then [recWithModal "3"] else []

/-- Fault-injection oracle for the dropdown selection: attempt 0 raises
an unexpected (non-staleness) exception, every later attempt
succeeds. -/
def oracleOtherThenOk : Nat → Scrapper.SelectOutcome := fun n =>
  if n = 0 then Scrapper.SelectOutcome.otherError else Scrapper.SelectOutcome.ok

/-- Fault-injection oracle raising staleness on attempts 0 and 1 and
succeeding on attempt 2. -/
def oracleStaleTwice : Nat → Scrapper.SelectOutcome := fun n =>
  if n < 2 then Scrapper.SelectOutcome.stale else Scrapper.SelectOutcome.ok

/-- Mock data items for filter_data. -/
def itemA : MockScraper.MockItem := ⟨some 5, some 10, some "2024-01-02"⟩

def itemB : MockScraper.MockItem := ⟨some 1, some 10, some "2024-01-05"⟩

/-- A filter dict with a minimum price bound and a from-date. -/
def filtersW : MockScraper.Filters := ⟨some 3, none, some "2024-01-01", none⟩

/- == Helper lemmas == -/

/-- Row-by-row processing is the same as: keep the rows with at least
11 cells, build their records, keep the valid ones. -/
theorem filterMap_parseRow_eq (l : List (List String)) :
    l.filterMap Scrapper.parseRow
      = ((l.filter fun c => decide (11 ≤ c.length)).map Scrapper.mkRecord).filter
          Scrapper.rowValid := by
  induction l with
  | nil => rfl
  | cons c t ih =>
    by_cases h : c.length < 11
    · have h2 : ¬ (11 ≤ c.length) := by omega
      simp [List.filterMap_cons, List.filter_cons, Scrapper.parseRow, h, h2, ih]
    · have h2 : 11 ≤ c.length := by omega
      by_cases hv : Scrapper.rowValid (Scrapper.mkRecord c)
      · simp [List.filterMap_cons, List.filter_cons, Scrapper.parseRow, h, h2, hv, ih]
      · simp [List.filterMap_cons, List.filter_cons, Scrapper.parseRow, h, h2, hv, ih]

/- == Claim theorems == -/

/-- C3: for every input HTML table, _extract_table_data skips the
header row, skips every data row with fewer than 11 cells, keeps the
surviving records in source row order, and every output record has a
non-empty Market_Center and a non-empty Modal_Price (the stored fields
are the stripped cell texts, so non-empty means non-empty after
trimming); invalid rows are dropped silently, not surfaced as
errors. -/
theorem extract_skips_and_keeps_valid_in_order (rows : List (List String)) :
    Scrapper.extract_table_data rows
      = (((rows.drop 1).filter fun c => decide (11 ≤ c.length)).map Scrapper.mkRecord).filter
          Scrapper.rowValid ∧
    ∀ r ∈ Scrapper.extract_table_data rows,
      r.Market_Center ≠ "" ∧ r.Modal_Price ≠ "" := by
  have heq : Scrapper.extract_table_data rows
      = (((rows.drop 1).filter fun c => decide (11 ≤ c.length)).map Scrapper.mkRecord).filter
          Scrapper.rowValid := by
    unfold Scrapper.extract_table_data
    split
    · next h =>
      have hd : rows.drop 1 = [] := List.drop_eq_nil_of_le (by omega)
      simp [hd]
    · exact filterMap_parseRow_eq (rows.drop 1)
  refine ⟨heq, ?_⟩
  intro r hr
  rw [heq] at hr
  have hv := (List.mem_filter.mp hr).2
  unfold Scrapper.rowValid at hv
  simp only [Bool.and_eq_true, bne_iff_ne, ne_eq] at hv
  exact hv

/-- C3 witness: the record extracted from the scenario table has a
non-empty market center and modal price. -/
theorem extract_skips_and_keeps_valid_in_order_witness :
    recPune.Market_Center ≠ "" ∧ recPune.Modal_Price ≠ "" :=
  (extract_skips_and_keeps_valid_in_order tableOnionPune).2 recPune (by decide)

/-- C6 counterexample: on the scenario page (one header row, one data
row with 11 cells, marketCenter Pune, modal price 2,250) the single-day
fetch returns the modal price as the unchanged string 2,250 - the
fallback format_price strips nothing, so the comma survives and the
claimed value 2250 is not what the record holds. -/
theorem scrape_pune_comma_not_stripped :
    (Scrapper.scrape_market_data envOk 1).records.map Scrapper.Record.Modal_Price
      = ["2,250"] ∧
    ("2,250" : String) ≠ "2250" := by
  constructor <;> decide

/-- C6 (amended): the scenario fetch yields exactly one Record, with
Market_Center Pune and Modal_Price the raw trimmed cell text 2,250:
format_price is applied uniformly to the min, max and modal price
cells, but the fallback format_price of the file is the identity, so
thousands separators are preserved at extraction (they are only
stripped later when get_price_trends parses the price). -/
theorem scrape_pune_yields_raw_price_record :
    (Scrapper.scrape_market_data envOk 1).records = [recPune] ∧
    recPune.Modal_Price = "2,250" := by
  constructor <;> decide

/-- C1 counterexample: a run whose commodity selection fails (an
automation failure) returns exactly the same value as a run in which
the automation worked but the site had no table for that day - the
empty list - so the caller cannot tell the two apart. -/
theorem scrape_failure_equals_empty_success :
    envSelFail.selCommodity = false ∧ envNoTable.table = none ∧
    (Scrapper.scrape_market_data envSelFail 1).records
      = (Scrapper.scrape_market_data envNoTable 1).records := by
  refine ⟨rfl, rfl, ?_⟩
  decide

/-- C1 (amended): scrape_market_data surfaces every automation failure
- driver setup raising (before or after the session was created),
navigation raising, a failed dropdown selection, a wait timeout, a
failed date entry or submit click - to the caller as the empty list,
the same value as a successful fetch of a day with no table; no
distinguishable hard-failure value exists. -/
theorem scrape_errors_coerced_to_empty (env : Scrapper.ScrapeEnv) (days : Int)
    (h : env.setup = Scrapper.SetupOutcome.createFail ∨
         env.setup = Scrapper.SetupOutcome.configFail ∨
         env.navOk = false ∨ env.selCommodity = false ∨
         env.selState = false ∨ env.marketWaitOk = false ∨ env.selMarket = false ∨
         env.setDateOk = false ∨ env.clickGoOk = false) :
    (Scrapper.scrape_market_data env days).records = [] := by
  unfold Scrapper.scrape_market_data Scrapper.scrape_records_after_setup
  rcases h with h | h | h | h | h | h | h | h | h <;> (repeat' split) <;> simp_all

/-- C1 witness: a run whose navigation raises returns the empty
list. -/
theorem scrape_errors_coerced_to_empty_witness :
    (Scrapper.scrape_market_data envNavFail 1).records = [] :=
  scrape_errors_coerced_to_empty envNavFail 1 (Or.inr (Or.inr (Or.inl rfl)))

/-- C8 counterexample: for days = 0 the fetch does fail fast with no
session, but the value the caller receives is the plain empty list,
identical to the empty-day success value - there is no InvalidRange
error to observe. -/
theorem scrape_invalid_days_no_error_value :
    Scrapper.scrape_market_data envOk 0
      = { records := [], sessionsOpened := 0, sessionsClosed := 0 } ∧
    (Scrapper.scrape_market_data envOk 0).records
      = (Scrapper.scrape_market_data envNoTable 1).records := by
  constructor <;> decide

/-- C8 (amended): for every daysBack outside [1, MAX_DAYS_BACK] the
fetch returns the empty list immediately - no scraping step runs and no
browser session is created - but it signals the violation only by
logging; the returned value carries no InvalidRange error. -/
theorem scrape_invalid_days_fails_fast (env : Scrapper.ScrapeEnv) (days : Int)
    (h : days < 1 ∨ Scrapper.MAX_DAYS_BACK < days) :
    Scrapper.scrape_market_data env days
      = { records := [], sessionsOpened := 0, sessionsClosed := 0 } := by
  have hrange : ¬ (1 ≤ days ∧ days ≤ Scrapper.MAX_DAYS_BACK) := by
    simp only [Scrapper.MAX_DAYS_BACK] at h ⊢
    omega
  unfold Scrapper.scrape_market_data
  rw [if_pos hrange]

/-- C8 witness: days = 31 exceeds MAX_DAYS_BACK = 30 and is rejected
with no session. -/
theorem scrape_invalid_days_fails_fast_witness :
    Scrapper.scrape_market_data envOk 31
      = { records := [], sessionsOpened := 0, sessionsClosed := 0 } :=
  scrape_invalid_days_fails_fast envOk 31 (Or.inr (by decide))

/-- C4: the claimed invariant fails on the code.  _setup_driver is not
atomic: when webdriver.Chrome (line 114) succeeds but a configuration
call (lines 115-116) raises, a live session exists while the exception
propagates.  In scrape_market_data the assignment at line 334 never
completes, so the finally clause finds self.driver None and quits
nothing; in _get_dropdown_options line 132 sits outside the
try/finally, so the escaping exception bypasses the quit.  On this
path both operations open one session and close zero: the session is
created and no teardown call is ever reached. -/
theorem setup_config_failure_leaks_session :
    (Scrapper.scrape_market_data envConfigFail 1).sessionsOpened = 1 ∧
    (Scrapper.scrape_market_data envConfigFail 1).sessionsClosed = 0 ∧
    (Scrapper.get_dropdown_options denvConfigFail "--Select--").sessionsOpened = 1 ∧
    (Scrapper.get_dropdown_options denvConfigFail "--Select--").sessionsClosed = 0 := by
  refine ⟨rfl, rfl, rfl, rfl⟩

/-- C9: cleanup never lets an error out (any exception of the
underlying quit call is caught and logged), it always leaves
self.driver cleared, and a second call is a no-op: same state back, no
further quit call, no error - idempotence. -/
theorem cleanup_idempotent_and_swallows (s : Scrapper.CleanupState) :
    (Scrapper.cleanup s).raised = false ∧
    ((Scrapper.cleanup s).state).driver = none ∧
    Scrapper.cleanup ((Scrapper.cleanup s).state)
      = { state := (Scrapper.cleanup s).state, quitCalls := 0, raised := false } := by
  obtain ⟨d, q⟩ := s
  cases d <;> simp [Scrapper.cleanup]

/-- The retry loop succeeds exactly when some attempt within the fuel
budget succeeds and every earlier attempt failed with a retried error
class (staleness or an unexpected exception). -/
theorem select_loop_true_iff (oracle : Nat → Scrapper.SelectOutcome) :
    ∀ (fuel a : Nat),
      Scrapper.select_loop oracle fuel a = true ↔
        ∃ i, i < fuel ∧ oracle (a + i) = Scrapper.SelectOutcome.ok ∧
          ∀ j, j < i →
            (oracle (a + j) = Scrapper.SelectOutcome.stale ∨
             oracle (a + j) = Scrapper.SelectOutcome.otherError) := by
  intro fuel
  induction fuel with
  | zero =>
    intro a
    simp [Scrapper.select_loop]
  | succ n ih =>
    intro a
    cases h : oracle a with
    | ok =>
      constructor
      · intro _
        exact ⟨0, Nat.succ_pos n, by simpa using h,
          fun j hj => absurd hj (Nat.not_lt_zero j)⟩
      · intro _
        simp [Scrapper.select_loop, h]
    | notFound =>
      constructor
      · intro hl
        exfalso
        simp [Scrapper.select_loop, h] at hl
      · rintro ⟨i, hi, hok, hpre⟩
        exfalso
        cases i with
        | zero =>
          rw [Nat.add_zero, h] at hok
          simp at hok
        | succ k =>
          rcases hpre 0 (Nat.succ_pos k) with hh | hh <;>
            (rw [Nat.add_zero, h] at hh; simp at hh)
    | stale =>
      have hstep : Scrapper.select_loop oracle (n + 1) a
          = Scrapper.select_loop oracle n (a + 1) := by
        simp [Scrapper.select_loop, h]
      rw [hstep, ih (a + 1)]
      constructor
      · rintro ⟨i, hi, hok, hpre⟩
        refine ⟨i + 1, by omega, ?_, ?_⟩
        · have he : a + (i + 1) = a + 1 + i := by omega
          rw [he]; exact hok
        · intro j hj
          cases j with
          | zero =>
            rw [Nat.add_zero, h]
            exact Or.inl rfl
          | succ k =>
            have he : a + (k + 1) = a + 1 + k := by omega
            rw [he]
            exact hpre k (by omega)
      · rintro ⟨i, hi, hok, hpre⟩
        cases i with
        | zero =>
          rw [Nat.add_zero, h] at hok
          simp at hok
        | succ k =>
          refine ⟨k, by omega, ?_, ?_⟩
          · have he : a + 1 + k = a + (k + 1) := by omega
            rw [he]; exact hok
          · intro j hj
            have he : a + 1 + j = a + (j + 1) := by omega
            rw [he]
            exact hpre (j + 1) (by omega)
    | otherError =>
      have hstep : Scrapper.select_loop oracle (n + 1) a
          = Scrapper.select_loop oracle n (a + 1) := by
        simp [Scrapper.select_loop, h]
      rw [hstep, ih (a + 1)]
      constructor
      · rintro ⟨i, hi, hok, hpre⟩
        refine ⟨i + 1, by omega, ?_, ?_⟩
        · have he : a + (i + 1) = a + 1 + i := by omega
          rw [he]; exact hok
        · intro j hj
          cases j with
          | zero =>
            rw [Nat.add_zero, h]
            exact Or.inr rfl
          | succ k =>
            have he : a + (k + 1) = a + 1 + k := by omega
            rw [he]
            exact hpre k (by omega)
      · rintro ⟨i, hi, hok, hpre⟩
        cases i with
        | zero =>
          rw [Nat.add_zero, h] at hok
          simp at hok
        | succ k =>
          refine ⟨k, by omega, ?_, ?_⟩
          · have he : a + 1 + k = a + (k + 1) := by omega
            rw [he]; exact hok
          · intro j hj
            have he : a + 1 + j = a + (j + 1) := by omega
            rw [he]
            exact hpre (j + 1) (by omega)

/-- C2 counterexample: a fault injector that raises an unexpected
(non-staleness) exception on attempt 0 and succeeds on attempt 1 makes
_select_dropdown_option return True: the unexpected error class is
retried and consumes retry budget, it does not abort immediately with
hard failure as claimed; likewise no Session teardown or re-navigation
happens between these attempts (the loop re-locates the element in the
same driver). -/
theorem select_nonstale_error_is_retried :
    oracleOtherThenOk 0 = Scrapper.SelectOutcome.otherError ∧
    Scrapper.select_dropdown_option oracleOtherThenOk 3 = true := by
  constructor <;> rfl

/-- C2 (amended): in _select_dropdown_option, bounded by max_retries =
3 attempts, staleness and every other unexpected exception are both
retried after a fixed short delay within the same session (no teardown,
no re-navigation), only an option-not-found error returns failure
immediately, and the call returns a Bool on every oracle - exhausting
the attempts yields False, never an exception: the loop succeeds
exactly when some attempt below 3 succeeds and every earlier attempt
raised staleness or an unexpected exception. -/
theorem select_retry_characterization (oracle : Nat → Scrapper.SelectOutcome) :
    Scrapper.select_dropdown_option oracle 3 = true ↔
      ∃ i, i < 3 ∧ oracle i = Scrapper.SelectOutcome.ok ∧
        ∀ j, j < i →
          (oracle j = Scrapper.SelectOutcome.stale ∨
           oracle j = Scrapper.SelectOutcome.otherError) := by
  have h := select_loop_true_iff oracle 3 0
  simpa using h

/-- C2 witness: with staleness raised on attempts 0 and 1 and success
on attempt 2, the selection succeeds on the third attempt; the success
pattern of the characterization holds at i = 2. -/
theorem select_retry_characterization_witness :
    ∃ i, i < 3 ∧ oracleStaleTwice i = Scrapper.SelectOutcome.ok ∧
      ∀ j, j < i →
        (oracleStaleTwice j = Scrapper.SelectOutcome.stale ∨
         oracleStaleTwice j = Scrapper.SelectOutcome.otherError) :=
  (select_retry_characterization oracleStaleTwice).mp (by decide)

/-- Evaluation helper: the price a day contributes, when the day has a
first record whose comma-stripped modal price is a plain digit
numeral. -/
theorem price_of_day_eval (dailyData : Nat → List Scrapper.Record) (d : Nat)
    (r : Scrapper.Record) (rest : List Scrapper.Record) (h : dailyData d = r :: rest)
    (s : String) (hs : Scrapper.remove_commas r.Modal_Price = s)
    (hsp : split_on '.' s = [s]) (hd : isDigits s.data = true) (n : Nat)
    (hc : charsToNat s.data = n) :
    Scrapper.price_of_day dailyData d = some (n : ℚ) := by
  unfold Scrapper.price_of_day
  rw [h]
  show Scrapper.parse_float (Scrapper.remove_commas r.Modal_Price) = some (n : ℚ)
  rw [hs]
  unfold Scrapper.parse_float
  rw [hsp]
  simp [hd, hc]

/-- Evaluation of the collected (newest-first) prices of the daily5
oracle. -/
theorem collected_daily5_eval :
    Scrapper.collected_prices daily5 5 = [2150, 2100, 2000] := by
  have h1 : Scrapper.price_of_day daily5 1 = some ((2150 : Nat) : ℚ) :=
    price_of_day_eval daily5 1 (recWithModal "2150") [] rfl "2150"
      (by decide) (by decide) (by decide) 2150 (by decide)
  have h2 : Scrapper.price_of_day daily5 2 = some ((2100 : Nat) : ℚ) :=
    price_of_day_eval daily5 2 (recWithModal "2100") [] rfl "2100"
      (by decide) (by decide) (by decide) 2100 (by decide)
  have h3 : Scrapper.price_of_day daily5 3 = some ((2000 : Nat) : ℚ) :=
    price_of_day_eval daily5 3 (recWithModal "2000") [] rfl "2000"
      (by decide) (by decide) (by decide) 2000 (by decide)
  have h4 : Scrapper.price_of_day daily5 4 = none := rfl
  have h5 : Scrapper.price_of_day daily5 5 = none := rfl
  have hord : Scrapper.trend_call_order 5 = [1, 2, 3, 4, 5] := by decide
  unfold Scrapper.collected_prices
  rw [hord]
  simp only [List.filterMap_cons, h1, h2, h3, h4, h5, List.filterMap_nil]
  norm_num

/-- Evaluation of the collected (newest-first) prices of the dailyDown
oracle. -/
theorem collected_dailyDown_eval :
    Scrapper.collected_prices dailyDown 2 = [1, 3] := by
  have h1 : Scrapper.price_of_day dailyDown 1 = some ((1 : Nat) : ℚ) :=
    price_of_day_eval dailyDown 1 (recWithModal "1") [] rfl "1"
      (by decide) (by decide) (by decide) 1 (by decide)
  have h2 : Scrapper.price_of_day dailyDown 2 = some ((3 : Nat) : ℚ) :=
    price_of_day_eval dailyDown 2 (recWithModal "3") [] rfl "3"
      (by decide) (by decide) (by decide) 3 (by decide)
  have hord : Scrapper.trend_call_order 2 = [1, 2] := by decide
  unfold Scrapper.collected_prices
  rw [hord]
  simp only [List.filterMap_cons, h1, h2, List.filterMap_nil]
  norm_num

/-- Full evaluation of get_price_trends on the dailyDown oracle: the
percentage change comes back rounded to two decimal places. -/
theorem trends_dailyDown_eval :
    Scrapper.get_price_trends dailyDown 2 = some
      { trend_data_points := 2, highest_price := 3, lowest_price := 1,
        average_price := 2, latest_price := 1, trend := "downward",
        percentage_change := -6667 / 100 } := by
  have hc : Scrapper.chrono_prices dailyDown 2 = [3, 1] := by
    unfold Scrapper.chrono_prices
    rw [collected_dailyDown_eval]
    rfl
  unfold Scrapper.get_price_trends
  rw [hc]
  unfold Scrapper.trend_summary_of_prices
  norm_num [Scrapper.pyround2, Scrapper.round_half_even, max_def, min_def,
    Int.floor_eq_iff]

/-- C5 counterexample: with collected chronological prices [3, 1] the
returned percentage change is the two-decimal rounding -66.67, not the
exact (last - first) / first * 100 = -200/3 the claim states. -/
theorem trends_pct_not_exact_formula :
    (Scrapper.get_price_trends dailyDown 2).map Scrapper.TrendSummary.percentage_change
      = some (-6667 / 100) ∧
    ((-6667 : ℚ) / 100) ≠ ((1 : ℚ) - 3) / 3 * 100 := by
  constructor
  · rw [trends_dailyDown_eval]
    rfl
  · norm_num

/-- C5 (amended): whenever at least one price was collected, the
summary classifies the trend by comparing the last chronological price
to the first - upward when last > first, downward when last < first,
stable otherwise - and its percentage change is
(last - first) / first * 100 when first is nonzero (0 otherwise),
rounded to two decimal places as Python round(x, 2) does. -/
theorem trends_classification (dailyData : Nat → List Scrapper.Record) (days : Nat)
    (p0 : ℚ) (rest : List ℚ)
    (h : Scrapper.chrono_prices dailyData days = p0 :: rest) :
    ∃ s, Scrapper.get_price_trends dailyData days = some s ∧
      s.latest_price = (p0 :: rest).getLastD 0 ∧
      s.trend = (if p0 < (p0 :: rest).getLastD 0 then "upward"
                 else if (p0 :: rest).getLastD 0 < p0 then "downward" else "stable") ∧
      s.percentage_change =
        Scrapper.pyround2
          (if p0 ≠ 0 then ((p0 :: rest).getLastD 0 - p0) / p0 * 100 else 0) := by
  unfold Scrapper.get_price_trends
  rw [h]
  unfold Scrapper.trend_summary_of_prices
  cases rest with
  | nil =>
    refine ⟨_, rfl, ?_, ?_, ?_⟩
    · simp
    · simp
    · by_cases hp : p0 = 0 <;> simp [hp]
  | cons p1 t =>
    have hn : (1 : Nat) < (p0 :: p1 :: t).length := by
      simp [List.length_cons]
    refine ⟨_, rfl, ?_, ?_, ?_⟩
    · simp
    · simp only [if_pos hn, sub_pos, sub_neg]
    · simp only [if_pos hn]

/-- C5 witness: three collected prices, chronologically 2000, 2100,
2150, over a five-day window give trend upward with percentage change
exactly 7.5. -/
theorem trends_classification_witness :
    ∃ s, Scrapper.get_price_trends daily5 5 = some s ∧
      s.trend = "upward" ∧ s.percentage_change = 15 / 2 := by
  have hchrono : Scrapper.chrono_prices daily5 5 = 2000 :: [2100, 2150] := by
    unfold Scrapper.chrono_prices
    rw [collected_daily5_eval]
    rfl
  obtain ⟨s, hs, hl, ht, hp⟩ := trends_classification daily5 5 2000 [2100, 2150] hchrono
  refine ⟨s, hs, ?_, ?_⟩
  · rw [ht]
    norm_num
  · rw [hp]
    norm_num [Scrapper.pyround2, Scrapper.round_half_even, Int.floor_eq_iff]

/-- C7 counterexample: the per-day loop passes daysBack = 1, 2, 3 to
the single-day fetch, newest day first, not daysBack = 3, 2, 1 oldest
first as claimed. -/
theorem trend_calls_ascending :
    Scrapper.trend_call_order 3 = [1, 2, 3] ∧ ([1, 2, 3] : List Nat) ≠ [3, 2, 1] := by
  constructor <;> decide

/-- C7 (amended): get_price_trends calls the single-day fetch once per
day for daysBack = 1, 2, ..., days (newest first) and reverses the
collected list afterwards, so the chronological price sequence it
builds equals the oldest-first (days down to 1) traversal that takes
the first Record of each non-empty day and skips days with no data or
unparsable prices. -/
theorem trend_chronological_sequence (dailyData : Nat → List Scrapper.Record) (days : Nat) :
    Scrapper.trend_call_order days = List.range' 1 days ∧
    Scrapper.chrono_prices dailyData days
      = ((Scrapper.trend_call_order days).reverse).filterMap
          (Scrapper.price_of_day dailyData) := by
  constructor
  · rw [Scrapper.trend_call_order, List.range'_eq_map_range]
    simp [Nat.add_comm]
  · rw [Scrapper.chrono_prices, Scrapper.collected_prices, List.filterMap_reverse]

/-- A date-comprehension stage that returns keeps an order-preserving
subsequence of its input. -/
theorem filterByDate_sublist (keep : Nat × Nat × Nat → Bool) :
    ∀ (l res : List MockScraper.MockItem),
      MockScraper.filterByDate keep l = some res → res.Sublist l := by
  intro l
  induction l with
  | nil =>
    intro res h
    unfold MockScraper.filterByDate at h
    simp only [Option.some.injEq] at h
    rw [← h]
  | cons it rest ih =>
    intro res h
    unfold MockScraper.filterByDate at h
    cases hp : MockScraper.parse_date (it.date.getD "") with
    | none =>
      rw [hp] at h
      simp at h
    | some d =>
      rw [hp] at h
      obtain ⟨tail, htail, hres⟩ := Option.map_eq_some'.mp h
      rw [← hres]
      by_cases hk : keep d
      · rw [if_pos hk]
        exact List.Sublist.cons₂ it (ih tail htail)
      · rw [if_neg hk]
        exact List.Sublist.cons it (ih tail htail)

/-- A whole optional date-filter stage that returns keeps an
order-preserving subsequence of its input. -/
theorem applyDateFilter_sublist (bound : Option String)
    (keep : Nat × Nat × Nat → Nat × Nat × Nat → Bool)
    (fd res : List MockScraper.MockItem)
    (h : MockScraper.applyDateFilter bound keep fd = some res) : res.Sublist fd := by
  unfold MockScraper.applyDateFilter at h
  cases bound with
  | none =>
    simp only [Option.some.injEq] at h
    rw [← h]
  | some s =>
    dsimp only at h
    cases hp : MockScraper.parse_date s with
    | none =>
      rw [hp] at h
      simp at h
    | some d0 =>
      rw [hp] at h
      exact filterByDate_sublist (keep d0) fd res h

/-- C10: whenever filter_data returns (no strptime ValueError), the
returned list is an order-preserving subsequence of the input data:
every returned item is an element of the input and relative order is
preserved; the input itself is not mutated, since line 160 filters a
copy - the embedding is accordingly a pure function of the input. -/
theorem filter_data_sublist (data : List MockScraper.MockItem)
    (filters : MockScraper.Filters) (res : List MockScraper.MockItem)
    (h : MockScraper.filter_data data filters = some res) :
    res.Sublist data := by
  unfold MockScraper.filter_data at h
  obtain ⟨fd3, h3, h4⟩ := Option.bind_eq_some.mp h
  refine ((applyDateFilter_sublist _ _ _ _ h4).trans
    ((applyDateFilter_sublist _ _ _ _ h3).trans ?_))
  cases filters.min_price_range with
  | none =>
    cases filters.max_price_range with
    | none => exact List.Sublist.refl data
    | some v => exact List.filter_sublist data
  | some v =>
    cases filters.max_price_range with
    | none => exact List.filter_sublist data
    | some w => exact (List.filter_sublist _).trans (List.filter_sublist data)

/-- C10 witness: on two concrete items with a minimum-price bound and a
from-date, filter_data keeps exactly the first item, a subsequence of
the input. -/
theorem filter_data_sublist_witness : List.Sublist [itemA] [itemA, itemB] :=
  filter_data_sublist [itemA, itemB] filtersW [itemA] (by decide)

end KisanG
